import Mathlib

/-!
Shallow embedding of `src/galliun.js` (GalliunClient / GalliunButton).

Modelling conventions:
- JS `undefined`-able string/number fields become `Option String` / `Option Int`.
- User-supplied callbacks (`onSuccess`, `onError`, `onClose`, `onLoaded`) are
  external code; the embedding records their *presence* as Booleans in a
  `Callbacks` record and records each invocation, with the argument the source
  passes, as a `CbEvent` in an emitted event list.
- `window.open` is external I/O; `openPopup` takes the handle that the browser
  returns (`none` models a `null` return, i.e. a blocked popup).
- The `setInterval` closure poll of a popup is modelled by the Boolean field
  `pollActive` (a timer is running) together with the `pollTick` step, whose
  body is the source's interval callback; `clearInterval` sets the flag
  to `false`.  The source keeps at most one live popup per button, which this
  single flag represents.
- `Date.now()` is passed in as an explicit `now : Int` argument.
- DOM rendering (styles, hover handlers) has no observable effect on the
  claims; `mount` records only whether the button element was rendered and
  whether the missing-container branch logged (`console.error`) and returned.
-/

namespace GalliunSpec

/-- A popup window handle as the opener sees it: only its `closed` flag is
ever read by the source. `close()` sets `closed` to `true`. -/
structure Popup where
  closed : Bool
deriving DecidableEq

/-- Which of the four optional user callbacks were supplied at mount time
(`this.callbacks` in the source; `{}` before mount, so all absent). -/
structure Callbacks where
  hasOnSuccess : Bool := false
  hasOnError : Bool := false
  hasOnClose : Bool := false
  hasOnLoaded : Bool := false
deriving DecidableEq

/-- The untyped `data` object carried by a protocol message (and also the
shape of the literal error objects the source synthesizes): every field the
source ever reads, each possibly `undefined`. -/
structure MessageData where
  transactionId : Option String := none
  amount : Option Int := none
  coinType : Option String := none
  timestamp : Option Int := none
  productId : Option String := none
  billId : Option String := none
  product : Option String := none
  type : Option String := none
  code : Option String := none
  message : Option String := none
  error : Option String := none
  param : Option String := none
deriving DecidableEq

/-- The payload `event.data = {type, data}` destructured by
`GalliunButton.handleMessage`. -/
structure ButtonMessage where
  type : String
  data : MessageData
deriving DecidableEq

/-- An inbound cross-window message event as seen by
`GalliunClient.handleMessage`: its `origin` and its payload. -/
structure WindowEvent where
  origin : String
  data : ButtonMessage
deriving DecidableEq

/-- The normalized result object built in the `GALLIUN_SUCCESS` branch
(`metaProductId`/`metaBillId` are the `metadata.productId`/`metadata.billId`
sub-fields). -/
structure SuccessResult where
  id : Option String
  status : String
  amount : Option Int
  currency : Option String
  created : Option Int
  metaProductId : Option String
  metaBillId : Option String
  product : Option String
deriving DecidableEq

/-- The uniform error shape built by `GalliunButton.handleError`
(`metaProductId`/`metaTimestamp` are the `metadata` sub-fields). -/
structure StandardError where
  type : String
  code : Option String
  message : Option String
  param : Option String
  metaProductId : Option String
  metaTimestamp : Int
deriving DecidableEq

/-- One observable callback invocation on the host page, with the argument
the source passes. -/
inductive CbEvent where
  | onSuccess (result : SuccessResult)
  | onError (err : StandardError)
  | onClose
  | onLoaded
deriving DecidableEq

/-- The mutable state of one `GalliunButton` instance. -/
structure GalliunButton where
  elementId : String
  baseUrl : String
  popup : Option Popup
  callbacks : Callbacks
  productId : Option String
  pollActive : Bool
deriving DecidableEq

/-- The `GalliunButton` constructor: `this.popup = null`,
`this.callbacks = {}`; `this.productId` is not yet assigned and no poll
is running. -/
def GalliunButton.new (elementId baseUrl : String) : GalliunButton :=
  { elementId := elementId, baseUrl := baseUrl, popup := none,
    callbacks := {}, productId := none, pollActive := false }

/-- JS `a || b` for a possibly-undefined string `a` against a string default
(`undefined` and the empty string are falsy). -/
def jsOrStr (a : Option String) (b : String) : String :=
  match a with
  | some s => if s = "" then b else s
  | none => b

/-- JS `a || b` where both operands are possibly-undefined strings. -/
def jsOrOpt (a b : Option String) : Option String :=
  match a with
  | some s => if s = "" then b else some s
  | none => b

/-- The `standardError` object built by `GalliunButton.handleError`:
`type: error.type || 'api_error'`, `message: error.message || error.error`,
`metadata: {productId: this.productId, timestamp: Date.now()}`. -/
def standardErrorOf (b : GalliunButton) (error : MessageData) (now : Int) :
    StandardError :=
  { type := jsOrStr error.type "api_error",
    code := error.code,
    message := jsOrOpt error.message error.error,
    param := error.param,
    metaProductId := b.productId,
    metaTimestamp := now }

/-- The `result` object built in the `GALLIUN_SUCCESS` branch of
`GalliunButton.handleMessage`. -/
def successResultOf (data : MessageData) : SuccessResult :=
  { id := data.transactionId,
    status := "succeeded",
    amount := data.amount,
    currency := data.coinType,
    created := data.timestamp,
    metaProductId := data.productId,
    metaBillId := data.billId,
    product := data.product }

/-- `if (this.popup) { this.popup.close(); }` — close the handle when one
exists (even if it already reports closed; `close()` is then a no-op). -/
def closeIfPresent (b : GalliunButton) : GalliunButton :=
  match b.popup with
  | some _ => { b with popup := some ⟨true⟩ }
  | none => b

/-- Whether `this.popup && !this.popup.closed` holds (a live popup). -/
def popupOpen (b : GalliunButton) : Bool :=
  match b.popup with
  | some p => !p.closed
  | none => false

/-- `GalliunButton.handleError`: invoke `onError` with the normalized error
when the callback is present, then close the popup if one exists. -/
def GalliunButton.handleError (b : GalliunButton) (error : MessageData)
    (now : Int) : GalliunButton × List CbEvent :=
  let events := if b.callbacks.hasOnError
    then [CbEvent.onError (standardErrorOf b error now)] else []
  (closeIfPresent b, events)

/-- `GalliunButton.handleMessage`: the `switch (type)` over the payload.
The argument is `event.data` (the origin check lives in the client). -/
def GalliunButton.handleMessage (b : GalliunButton) (m : ButtonMessage)
    (now : Int) : GalliunButton × List CbEvent :=
  if m.type = "GALLIUN_LOADED" then
    (b, if b.callbacks.hasOnLoaded then [CbEvent.onLoaded] else [])
  else if m.type = "GALLIUN_SUCCESS" then
    let events := if b.callbacks.hasOnSuccess
      then [CbEvent.onSuccess (successResultOf m.data)] else []
    (closeIfPresent b, events)
  else if m.type = "GALLIUN_ERROR" then
    b.handleError m.data now
  else if m.type = "GALLIUN_CLOSE" then
    (closeIfPresent b,
     if b.callbacks.hasOnClose then [CbEvent.onClose] else [])
  else
    (b, [])

/-- The literal error object synthesized when the popup is blocked. -/
def popupBlockedError : MessageData :=
  { type := some "popup_error",
    code := some "popup_blocked",
    message := some
      "Payment popup was blocked. Please allow popups for this site." }

/-- `GalliunButton.openPopup`: close any live popup, assign the handle
returned by `window.open` (`opened`; `none` = blocked); when the new handle
is null or already closed, funnel a `popup_blocked` error through
`handleError` and return without starting the closure poll; otherwise start
the poll. The navigation URL and window geometry are arguments to the
external `window.open` and are not observable here. -/
def GalliunButton.openPopup (b : GalliunButton) (opened : Option Popup)
    (now : Int) : GalliunButton × List CbEvent :=
  let b0 := if popupOpen b then { b with popup := some ⟨true⟩ } else b
  let b1 := { b0 with popup := opened }
  if !popupOpen b1 then
    b1.handleError popupBlockedError now
  else
    ({ b1 with pollActive := true }, [])

/-- One firing of the closure-poll interval callback:
`if (!this.popup || this.popup.closed) { clearInterval(pollTimer);
this.callbacks.onClose?.(); }`. A tick with no running timer does nothing. -/
def GalliunButton.pollTick (b : GalliunButton) : GalliunButton × List CbEvent :=
  if b.pollActive then
    if !popupOpen b then
      ({ b with pollActive := false },
       if b.callbacks.hasOnClose then [CbEvent.onClose] else [])
    else (b, [])
  else (b, [])

/-- `GalliunClient.registerFeature`: `this._activeFeatures.add(feature)`.
Features are identified by reference; the registry is a finite set of
feature identities. -/
def registerFeature (reg : Finset ℕ) (f : ℕ) : Finset ℕ :=
  insert f reg

/-- `GalliunClient.unregisterFeature`: `this._activeFeatures.delete(feature)`. -/
def unregisterFeature (reg : Finset ℕ) (f : ℕ) : Finset ℕ :=
  reg.erase f

/-- `GalliunButton.destroy`: close the popup when live, then unregister this
feature from the client registry. It does not touch the poll timer. -/
def GalliunButton.destroy (b : GalliunButton) (reg : Finset ℕ) (fid : ℕ) :
    GalliunButton × Finset ℕ :=
  let b1 := if popupOpen b then { b with popup := some ⟨true⟩ } else b
  (b1, unregisterFeature reg fid)

/-- The options object accepted by `GalliunButton.mount`; styling options
(`buttonText`, `buttonSize`, `buttonTheme`, `customStyles`) feed only the
rendered DOM element and are omitted alongside it. -/
structure MountOptions where
  productId : Option String := none
  hasOnSuccess : Bool := false
  hasOnError : Bool := false
  hasOnClose : Bool := false
  hasOnLoaded : Bool := false
deriving DecidableEq

/-- Everything observable about one `mount` call: the button's state after,
the client registry after, the callback invocations, whether a button element
was rendered into the container, and whether the missing-container branch
logged to `console.error`. -/
structure MountResult where
  button : GalliunButton
  registry : Finset ℕ
  events : List CbEvent
  rendered : Bool
  logged : Bool
deriving DecidableEq

/-- JS truthiness of `options.productId` negated: `!options.productId` is
`true` exactly when the field is `undefined` or the empty string. -/
def productIdMissing (pid : Option String) : Bool :=
  match pid with
  | none => true
  | some s => s = ""

/-- The literal error object synthesized by `mount` when `productId` is
missing. -/
def parameterMissingError : MessageData :=
  { type := some "validation_error",
    code := some "parameter_missing",
    message := some "Product ID is required",
    param := some "productId" }

/-- `GalliunButton.mount`: when `document.getElementById` finds no container
(`containerFound = false`), log and return with nothing else done. Otherwise
store the callbacks, register this feature with the client, and only then
validate `productId`: when it is falsy, funnel a `parameter_missing`
validation error through `handleError` and return without rendering; when it
is present, store it on the instance and render the clickable button. -/
def GalliunButton.mount (b : GalliunButton) (containerFound : Bool)
    (options : MountOptions) (reg : Finset ℕ) (fid : ℕ) (now : Int) :
    MountResult :=
  if !containerFound then
    { button := b, registry := reg, events := [],
      rendered := false, logged := true }
  else
    let b1 := { b with callbacks :=
      { hasOnSuccess := options.hasOnSuccess,
        hasOnError := options.hasOnError,
        hasOnClose := options.hasOnClose,
        hasOnLoaded := options.hasOnLoaded } }
    let reg1 := registerFeature reg fid
    if productIdMissing options.productId then
      let r := b1.handleError parameterMissingError now
      { button := r.1, registry := reg1, events := r.2,
        rendered := false, logged := false }
    else
      let b2 := { b1 with productId := options.productId }
      { button := b2, registry := reg1, events := [],
        rendered := true, logged := false }

/-- One external stimulus a mounted feature reacts to during a payment
attempt: a protocol message (already origin-filtered by the client) or one
firing of the popup-closure poll. -/
inductive FeatureInput where
  | msg (m : ButtonMessage)
  | tick
deriving DecidableEq

/-- React to one stimulus: messages go through `handleMessage`, poll firings
through `pollTick`. -/
def GalliunButton.step (b : GalliunButton) (i : FeatureInput) (now : Int) :
    GalliunButton × List CbEvent :=
  match i with
  | FeatureInput.msg m => b.handleMessage m now
  | FeatureInput.tick => b.pollTick

/-- A stimulus is terminal when it is a `GALLIUN_SUCCESS` or `GALLIUN_ERROR`
protocol message. -/
def isTerminalInput (i : FeatureInput) : Bool :=
  match i with
  | FeatureInput.msg m =>
      m.type = "GALLIUN_SUCCESS" || m.type = "GALLIUN_ERROR"
  | FeatureInput.tick => false

/-- A callback invocation is terminal when it is `onSuccess` or `onError`. -/
def CbEvent.isTerminal : CbEvent → Bool
  | CbEvent.onSuccess _ => true
  | CbEvent.onError _ => true
  | CbEvent.onClose => false
  | CbEvent.onLoaded => false

/-- One payment attempt out of a stimulus stream: everything up to and
including the first terminal stimulus (the whole stream when none is
terminal). -/
def attemptSlice : List FeatureInput → List FeatureInput
  | [] => []
  | i :: rest => if isTerminalInput i then [i] else i :: attemptSlice rest

/-- Run a feature over a stream of stimuli, threading its state and
concatenating the emitted callback invocations in order. -/
def GalliunButton.runInputs (b : GalliunButton) (now : Int) :
    List FeatureInput → GalliunButton × List CbEvent
  | [] => (b, [])
  | i :: rest =>
      let s := b.step i now
      let r := s.1.runInputs now rest
      (r.1, s.2 ++ r.2)

/-- `this._activeFeatures.forEach(feature => ... feature.handleMessage(event))`
over the buttons of the registry (every button has a `handleMessage`
function, so the duck-type guard always passes): each button handles the
payload, its state is updated in place, and the callback invocations are
concatenated in iteration order. -/
def clientDispatch (bs : List GalliunButton) (m : ButtonMessage) (now : Int) :
    List GalliunButton × List CbEvent :=
  match bs with
  | [] => ([], [])
  | b :: rest =>
      let s := b.handleMessage m now
      let r := clientDispatch rest m now
      (s.1 :: r.1, s.2 ++ r.2)

/-- `GalliunClient.handleMessage`: `if (event.origin !== this.popupOrigin)
return;` then dispatch the event to every active feature. `trusted` is
`this.popupOrigin`, the origin derived from `baseUrl` at construction. -/
def GalliunClient.handleMessage (trusted : String) (bs : List GalliunButton)
    (ev : WindowEvent) (now : Int) : List GalliunButton × List CbEvent :=
  if ev.origin ≠ trusted then (bs, [])
  else clientDispatch bs ev.data now

/-- Run the client over a stream of inbound window events, threading the
feature states and concatenating the observable callback invocations. -/
def clientRun (trusted : String) (now : Int) :
    List GalliunButton → List WindowEvent → List GalliunButton × List CbEvent
  | bs, [] => (bs, [])
  | bs, ev :: rest =>
      let s := GalliunClient.handleMessage trusted bs ev now
      let r := clientRun trusted now s.1 rest
      (r.1, s.2 ++ r.2)

/-- A feature delivery as the router sees it: invoking
`feature.handleMessage(event)` runs user-supplied callbacks, so besides
emitting callback invocations it may throw; `some e` is an uncaught
exception carrying `e`. -/
def FeatureDelivery : Type :=
  ButtonMessage → List CbEvent × Option String

/-- `Set.forEach` semantics of the dispatch loop when deliveries may throw:
deliveries run sequentially in iteration order, and the loop has no
`try`/`catch`, so the first exception propagates and the remaining features
are not visited. -/
def forEachDispatch (hs : List FeatureDelivery) (m : ButtonMessage) :
    List CbEvent × Option String :=
  match hs with
  | [] => ([], none)
  | h :: rest =>
      let s := h m
      match s.2 with
      | some e => (s.1, some e)
      | none =>
          let r := forEachDispatch rest m
          (s.1 ++ r.1, r.2)

/-- `GalliunClient.handleMessage` over possibly-throwing deliveries: the
origin check, then the uncaught `forEach` dispatch. -/
def clientHandleRaw (trusted : String) (hs : List FeatureDelivery)
    (ev : WindowEvent) : List CbEvent × Option String :=
  if ev.origin ≠ trusted then ([], none)
  else forEachDispatch hs ev.data

/-- Whether the handle returned by `window.open` triggers the blocked-popup
branch of `openPopup`: `!this.popup || this.popup.closed` right after the
assignment. -/
def blockedHandle (opened : Option Popup) : Bool :=
  match opened with
  | none => true
  | some p => p.closed

/-- The observable callback invocations of one payment attempt: one popup
opening and the stimuli up to its terminal outcome. When the open attempt is
blocked, that is the terminal outcome and the attempt ends there; otherwise
the attempt spans the stimuli up to and including the first terminal
protocol message. -/
def paymentAttempt (b : GalliunButton) (opened : Option Popup) (now : Int)
    (inputs : List FeatureInput) : List CbEvent :=
  let o := b.openPopup opened now
  if blockedHandle opened then o.2
  else o.2 ++ (o.1.runInputs now (attemptSlice inputs)).2

/-- A mounted button whose stored `productId` is `"p1"`, with a live popup,
a running closure poll, and an `onSuccess` callback. -/
def btnSuccessP1 : GalliunButton :=
  { elementId := "pay", baseUrl := "https://pay.example",
    popup := some ⟨false⟩,
    callbacks := { hasOnSuccess := true },
    productId := some "p1", pollActive := true }

/-- A `GALLIUN_SUCCESS` payload whose `data.productId` is `"p2"`, different
from the receiving feature's stored `productId`. -/
def successDataP2 : MessageData :=
  { transactionId := some "t1", amount := some 500,
    coinType := some "USD", timestamp := some 123,
    productId := some "p2", billId := some "b1" }

/-- A mounted button with a live popup, a running closure poll, and an
`onClose` callback. -/
def btnPolling : GalliunButton :=
  { elementId := "pay", baseUrl := "https://pay.example",
    popup := some ⟨false⟩,
    callbacks := { hasOnClose := true },
    productId := some "p1", pollActive := true }

/-- A feature delivery whose user callback throws. -/
def throwingDelivery : FeatureDelivery :=
  fun _ => ([], some "boom")

/-- A feature delivery that invokes `onLoaded` and returns normally. -/
def loadedDelivery : FeatureDelivery :=
  fun _ => ([CbEvent.onLoaded], none)

/-- A trusted-origin `GALLIUN_LOADED` window event. -/
def loadedEvent : WindowEvent :=
  { origin := "https://pay.example",
    data := { type := "GALLIUN_LOADED", data := {} } }

/-- A window event from an untrusted origin. -/
def evilEvent : WindowEvent :=
  { origin := "https://evil.example",
    data := { type := "GALLIUN_SUCCESS", data := successDataP2 } }

/-- A mounted button with no popup and an `onError` callback. -/
def btnWithOnError : GalliunButton :=
  { elementId := "pay", baseUrl := "https://pay.example", popup := none,
    callbacks := { hasOnError := true },
    productId := some "p1", pollActive := false }

/-! Helper lemmas shared by the claim theorems. -/

/-- A message from an untrusted origin is discarded by the client with no
dispatch: the feature states and the observable callbacks are untouched. -/
theorem handleMessage_untrusted (trusted : String) (bs : List GalliunButton)
    (ev : WindowEvent) (now : Int) (h : ev.origin ≠ trusted) :
    GalliunClient.handleMessage trusted bs ev now = (bs, []) := by
  simp [GalliunClient.handleMessage, h]

/-! Claim theorems. -/

/-- C8: `registerFeature` and `unregisterFeature` are idempotent on the
registry: registering a feature twice equals registering it once,
unregistering an absent feature is a no-op, and registering twice followed by
unregistering once leaves the feature fully removed. -/
theorem galliun_C8 (reg : Finset ℕ) (f : ℕ) :
    registerFeature (registerFeature reg f) f = registerFeature reg f
    ∧ (f ∉ reg → unregisterFeature reg f = reg)
    ∧ f ∉ unregisterFeature (registerFeature (registerFeature reg f) f) f := by
  refine ⟨?_, ?_, ?_⟩
  · simp [registerFeature]
  · intro h
    simp [unregisterFeature, Finset.erase_eq_self.mpr h]
  · simp [registerFeature, unregisterFeature]

/-- Witness for C8 at the registry `{1, 2}` and feature `3`. -/
theorem galliun_C8_witness :
    registerFeature (registerFeature ({1, 2} : Finset ℕ) 3) 3
        = registerFeature ({1, 2} : Finset ℕ) 3
    ∧ ((3 : ℕ) ∉ ({1, 2} : Finset ℕ) →
        unregisterFeature ({1, 2} : Finset ℕ) 3 = ({1, 2} : Finset ℕ))
    ∧ (3 : ℕ) ∉ unregisterFeature
        (registerFeature (registerFeature ({1, 2} : Finset ℕ) 3) 3) 3 :=
  galliun_C8 {1, 2} 3

/-- C1: a message whose origin differs from the trusted origin is discarded
silently — the client handler leaves every feature state unchanged and
invokes no callback — and a whole event stream is observationally equivalent
to the stream with every cross-origin message removed. -/
theorem galliun_C1 (trusted : String) (now : Int) (bs : List GalliunButton)
    (ev : WindowEvent) (evs : List WindowEvent) (hev : ev.origin ≠ trusted) :
    GalliunClient.handleMessage trusted bs ev now = (bs, [])
    ∧ clientRun trusted now bs evs
        = clientRun trusted now bs
            (evs.filter (fun e => e.origin == trusted)) := by
  refine ⟨handleMessage_untrusted trusted bs ev now hev, ?_⟩
  induction evs generalizing bs with
  | nil => rfl
  | cons e rest ih =>
    by_cases h : e.origin = trusted
    · have hf : (e.origin == trusted) = true := by simp [h]
      simp only [List.filter_cons, hf, if_pos]
      simp only [clientRun]
      rw [ih]
    · have hf : (e.origin == trusted) = false := by simp [h]
      simp only [List.filter_cons, hf, Bool.false_eq_true, if_neg,
        not_false_eq_true]
      simp only [clientRun, handleMessage_untrusted trusted bs e now h,
        List.nil_append]
      rw [← ih]

/-- Witness for C1: a concrete cross-origin event against one mounted
feature. -/
theorem galliun_C1_witness :
    GalliunClient.handleMessage "https://pay.example" [btnSuccessP1]
        evilEvent 0 = ([btnSuccessP1], [])
    ∧ clientRun "https://pay.example" 0 [btnSuccessP1] [evilEvent]
        = clientRun "https://pay.example" 0 [btnSuccessP1]
            ([evilEvent].filter (fun e => e.origin == "https://pay.example")) :=
  galliun_C1 "https://pay.example" 0 [btnSuccessP1] evilEvent [evilEvent]
    (by decide)

/-- One stimulus produces at most one terminal callback invocation. -/
theorem step_terminal_le_one (b : GalliunButton) (i : FeatureInput)
    (now : Int) :
    ((b.step i now).2.countP CbEvent.isTerminal) ≤ 1 := by
  cases i with
  | msg m =>
    simp only [GalliunButton.step, GalliunButton.handleMessage]
    by_cases h1 : m.type = "GALLIUN_LOADED"
    · cases hcb : b.callbacks.hasOnLoaded <;>
        simp [h1, hcb, CbEvent.isTerminal]
    · by_cases h2 : m.type = "GALLIUN_SUCCESS"
      · cases hcb : b.callbacks.hasOnSuccess <;>
          simp [h1, h2, hcb, CbEvent.isTerminal]
      · by_cases h3 : m.type = "GALLIUN_ERROR"
        · cases hcb : b.callbacks.hasOnError <;>
            simp [h1, h2, h3, hcb, GalliunButton.handleError,
              CbEvent.isTerminal]
        · by_cases h4 : m.type = "GALLIUN_CLOSE"
          · cases hcb : b.callbacks.hasOnClose <;>
              simp [h1, h2, h3, h4, hcb, CbEvent.isTerminal]
          · simp [h1, h2, h3, h4]
  | tick =>
    simp only [GalliunButton.step, GalliunButton.pollTick]
    split_ifs <;> simp [CbEvent.isTerminal]

/-- A non-terminal stimulus produces no terminal callback invocation. -/
theorem step_nonterminal_zero (b : GalliunButton) (i : FeatureInput)
    (now : Int) (h : isTerminalInput i = false) :
    ((b.step i now).2.countP CbEvent.isTerminal) = 0 := by
  cases i with
  | msg m =>
    simp only [isTerminalInput, Bool.or_eq_false_iff,
      decide_eq_false_iff_not] at h
    obtain ⟨hs, he⟩ := h
    simp only [GalliunButton.step, GalliunButton.handleMessage]
    by_cases h1 : m.type = "GALLIUN_LOADED"
    · cases hcb : b.callbacks.hasOnLoaded <;>
        simp [h1, hcb, CbEvent.isTerminal]
    · by_cases h4 : m.type = "GALLIUN_CLOSE"
      · cases hcb : b.callbacks.hasOnClose <;>
          simp [h1, h4, hs, he, hcb, CbEvent.isTerminal]
      · simp [h1, h4, hs, he]
  | tick =>
    simp only [GalliunButton.step, GalliunButton.pollTick]
    split_ifs <;> simp [CbEvent.isTerminal]

/-- `openPopup` produces at most one terminal callback invocation. -/
theorem openPopup_terminal_le_one (b : GalliunButton) (opened : Option Popup)
    (now : Int) :
    ((b.openPopup opened now).2.countP CbEvent.isTerminal) ≤ 1 := by
  unfold GalliunButton.openPopup
  split_ifs <;> simp [GalliunButton.handleError, CbEvent.isTerminal] <;>
    split_ifs <;> simp [CbEvent.isTerminal]

/-- A non-blocked `openPopup` invokes no callback at all. -/
theorem openPopup_not_blocked (b : GalliunButton) (opened : Option Popup)
    (now : Int) (h : blockedHandle opened = false) :
    (b.openPopup opened now).2 = [] := by
  cases opened with
  | none => simp [blockedHandle] at h
  | some p =>
    have hp : p.closed = false := by simpa [blockedHandle] using h
    by_cases h1 : popupOpen b <;>
      simp [GalliunButton.openPopup, h1, popupOpen, hp]

/-- C2: within one payment attempt (a popup opening and the stimuli up to
its terminal outcome), at most one terminal callback (`onSuccess` or
`onError`) is invoked; `onClose` and `onLoaded` are not terminal and are
unconstrained. -/
theorem galliun_C2 (b : GalliunButton) (opened : Option Popup) (now : Int)
    (inputs : List FeatureInput) :
    ((paymentAttempt b opened now inputs).countP CbEvent.isTerminal) ≤ 1 := by
  unfold paymentAttempt
  by_cases hb : blockedHandle opened = true
  · simpa [hb] using openPopup_terminal_le_one b opened now
  · have hb0 : blockedHandle opened = false := by simpa using hb
    simp only [hb0, Bool.false_eq_true, if_neg, not_false_eq_true,
      openPopup_not_blocked b opened now hb0, List.nil_append]
    generalize (b.openPopup opened now).1 = b0
    induction inputs generalizing b0 with
    | nil => simp [GalliunButton.runInputs, attemptSlice]
    | cons i rest ih =>
      simp only [attemptSlice]
      by_cases hi : isTerminalInput i = true
      · simp only [hi, if_pos]
        simp only [GalliunButton.runInputs, List.countP_append,
          List.countP_nil]
        simpa using step_terminal_le_one b0 i now
      · have hi0 : isTerminalInput i = false := by simpa using hi
        simp only [hi0, Bool.false_eq_true, if_neg, not_false_eq_true]
        simp only [GalliunButton.runInputs, List.countP_append,
          step_nonterminal_zero b0 i now hi0, Nat.zero_add]
        exact ih _

/-- The `GALLIUN_SUCCESS` branch of the message handler, in closed form. -/
theorem handleMessage_success (b : GalliunButton) (d : MessageData)
    (now : Int) :
    b.handleMessage ⟨"GALLIUN_SUCCESS", d⟩ now
      = (closeIfPresent b,
         if b.callbacks.hasOnSuccess
         then [CbEvent.onSuccess (successResultOf d)] else []) := by
  simp [GalliunButton.handleMessage]

/-- C3 counterexample: a feature whose stored `productId` is `"p1"`
handling a trusted `GALLIUN_SUCCESS` whose payload carries
`productId = "p2"` invokes `onSuccess` with `metadata.productId = "p2"`,
which differs from the stored `productId` — the result's
`metadata.productId` is taken from the message data, not from the
feature. -/
theorem galliun_C3_counterexample :
    (btnSuccessP1.handleMessage ⟨"GALLIUN_SUCCESS", successDataP2⟩ 0).2
      = [CbEvent.onSuccess (successResultOf successDataP2)]
    ∧ (successResultOf successDataP2).metaProductId = some "p2"
    ∧ btnSuccessP1.productId = some "p1"
    ∧ (successResultOf successDataP2).metaProductId ≠ btnSuccessP1.productId := by
  refine ⟨rfl, rfl, rfl, by decide⟩

/-- C3 amended: for every feature with an `onSuccess` callback, handling a
trusted `GALLIUN_SUCCESS` with payload `d` invokes `onSuccess` exactly once
with the normalized result whose fields come from `d` — in particular
`metadata.productId = d.productId`, the payload's value, not the feature's
stored one — and then closes the popup when one exists. -/
theorem galliun_C3 (b : GalliunButton) (d : MessageData) (now : Int)
    (h : b.callbacks.hasOnSuccess = true) :
    (b.handleMessage ⟨"GALLIUN_SUCCESS", d⟩ now).2
      = [CbEvent.onSuccess
          { id := d.transactionId, status := "succeeded", amount := d.amount,
            currency := d.coinType, created := d.timestamp,
            metaProductId := d.productId, metaBillId := d.billId,
            product := d.product }]
    ∧ (b.handleMessage ⟨"GALLIUN_SUCCESS", d⟩ now).1.popup
        = b.popup.map (fun _ => ⟨true⟩) := by
  rw [handleMessage_success b d now]
  refine ⟨by simp [h, successResultOf], ?_⟩
  cases hb : b.popup <;> simp [closeIfPresent, hb]

/-- Witness for C3 at a concrete feature and payload. -/
theorem galliun_C3_witness :
    (btnSuccessP1.handleMessage ⟨"GALLIUN_SUCCESS", successDataP2⟩ 7).2
      = [CbEvent.onSuccess
          { id := successDataP2.transactionId, status := "succeeded",
            amount := successDataP2.amount,
            currency := successDataP2.coinType,
            created := successDataP2.timestamp,
            metaProductId := successDataP2.productId,
            metaBillId := successDataP2.billId,
            product := successDataP2.product }]
    ∧ (btnSuccessP1.handleMessage ⟨"GALLIUN_SUCCESS", successDataP2⟩ 7).1.popup
        = btnSuccessP1.popup.map (fun _ => ⟨true⟩) :=
  galliun_C3 btnSuccessP1 successDataP2 7 rfl

/-- C4 counterexample: a feature with a live popup, a running closure poll
and an `onClose` callback; after `destroy()` returns, the next firing of the
still-running poll invokes `onClose` — so `onClose` is invoked after
`destroy()`. -/
theorem galliun_C4_counterexample :
    (((btnPolling.destroy ∅ 0).1).pollTick).2 = [CbEvent.onClose] := by
  rfl

/-- C4 amended: `destroy()` closes the popup and unregisters the feature,
but does not clear the poll timer; the poll ceases at its next firing, which
observes the closed popup, stops the timer and invokes `onClose` once when
the callback is present; after that firing the poll is inactive and no
further firing invokes anything. -/
theorem galliun_C4 (b : GalliunButton) (reg : Finset ℕ) (fid : ℕ)
    (h : b.pollActive = true) :
    (b.destroy reg fid).1.popup = b.popup.map (fun _ => ⟨true⟩)
    ∧ (b.destroy reg fid).2 = unregisterFeature reg fid
    ∧ ((b.destroy reg fid).1.pollTick).2
        = (if b.callbacks.hasOnClose then [CbEvent.onClose] else [])
    ∧ ((b.destroy reg fid).1.pollTick).1.pollActive = false
    ∧ (((b.destroy reg fid).1.pollTick).1.pollTick).2 = [] := by
  cases hb : b.popup with
  | none =>
    simp [GalliunButton.destroy, GalliunButton.pollTick, popupOpen, hb, h]
  | some p =>
    obtain ⟨c⟩ := p
    cases c <;>
      simp [GalliunButton.destroy, GalliunButton.pollTick, popupOpen, hb, h]

/-- Witness for C4 at a concrete polling feature. -/
theorem galliun_C4_witness :
    (btnPolling.destroy ∅ 0).1.popup
        = btnPolling.popup.map (fun _ => ⟨true⟩)
    ∧ (btnPolling.destroy ∅ 0).2 = unregisterFeature ∅ 0
    ∧ ((btnPolling.destroy ∅ 0).1.pollTick).2
        = (if btnPolling.callbacks.hasOnClose then [CbEvent.onClose] else [])
    ∧ ((btnPolling.destroy ∅ 0).1.pollTick).1.pollActive = false
    ∧ (((btnPolling.destroy ∅ 0).1.pollTick).1.pollTick).2 = [] :=
  galliun_C4 btnPolling ∅ 0 rfl

/-- C5 counterexample: with two registered deliveries, the first of which
throws, the `forEach` dispatch propagates the exception and the second
feature never receives the trusted message (its `onLoaded` is not invoked),
although dispatched alone it would be — deliveries are not isolated. -/
theorem galliun_C5_counterexample :
    clientHandleRaw "https://pay.example"
        [throwingDelivery, loadedDelivery] loadedEvent = ([], some "boom")
    ∧ clientHandleRaw "https://pay.example" [loadedDelivery] loadedEvent
        = ([CbEvent.onLoaded], none) := by
  exact ⟨rfl, rfl⟩

/-- C5 amended: for a trusted-origin message, the router delivers to every
registered feature in iteration order provided no delivery throws; an
exception thrown by one delivery propagates uncaught out of the dispatch
loop and the features after it in iteration order are not delivered to. -/
theorem galliun_C5 (trusted : String) (hs : List FeatureDelivery)
    (ev : WindowEvent) (horigin : ev.origin = trusted)
    (hok : ∀ g ∈ hs, (g ev.data).2 = none) :
    clientHandleRaw trusted hs ev
      = ((hs.map (fun g => (g ev.data).1)).flatten, none) := by
  unfold clientHandleRaw
  rw [if_neg (by simp [horigin])]
  induction hs with
  | nil => rfl
  | cons g rest ih =>
    have hnone := hok g (List.mem_cons_self g rest)
    simp only [forEachDispatch, hnone, List.map_cons, List.flatten_cons]
    rw [ih (fun g2 hg2 => hok g2 (List.mem_cons_of_mem g hg2))]

/-- Witness for C5 at one non-throwing delivery. -/
theorem galliun_C5_witness :
    clientHandleRaw "https://pay.example" [loadedDelivery] loadedEvent
      = (([loadedDelivery].map (fun g => (g loadedEvent.data).1)).flatten,
         none) :=
  galliun_C5 "https://pay.example" [loadedDelivery] loadedEvent rfl
    (by
      intro g hg
      rw [List.mem_singleton] at hg
      rw [hg]
      rfl)

/-- C6: mounting with the container present but `productId` absent invokes
`onError` with a `validation_error` / `parameter_missing` error, opens no
popup and starts no poll, renders no button, and nevertheless registers the
feature with the router (registration happens before validation), so a
later `destroy()` is safe. -/
theorem galliun_C6 (b : GalliunButton) (options : MountOptions)
    (reg : Finset ℕ) (fid : ℕ) (now : Int)
    (hpid : options.productId = none) (herr : options.hasOnError = true) :
    (b.mount true options reg fid now).events
      = [CbEvent.onError
          { type := "validation_error", code := some "parameter_missing",
            message := some "Product ID is required",
            param := some "productId",
            metaProductId := b.productId, metaTimestamp := now }]
    ∧ (b.mount true options reg fid now).registry = registerFeature reg fid
    ∧ popupOpen (b.mount true options reg fid now).button = false
    ∧ (b.mount true options reg fid now).button.pollActive = b.pollActive
    ∧ (b.mount true options reg fid now).rendered = false := by
  refine ⟨?_, ?_, ?_, ?_, ?_⟩
  · simp [GalliunButton.mount, hpid, productIdMissing,
      GalliunButton.handleError, herr, standardErrorOf,
      parameterMissingError, jsOrStr, jsOrOpt]
  · simp [GalliunButton.mount, hpid, productIdMissing,
      GalliunButton.handleError]
  · cases hb : b.popup <;>
      simp [GalliunButton.mount, hpid, productIdMissing,
        GalliunButton.handleError, closeIfPresent, popupOpen, hb]
  · cases hb : b.popup <;>
      simp [GalliunButton.mount, hpid, productIdMissing,
        GalliunButton.handleError, closeIfPresent, hb]
  · simp [GalliunButton.mount, hpid, productIdMissing,
      GalliunButton.handleError]

/-- Witness for C6 at a freshly constructed feature. -/
theorem galliun_C6_witness :
    ((GalliunButton.new "pay" "u").mount true { hasOnError := true }
        ∅ 0 5).events
      = [CbEvent.onError
          { type := "validation_error", code := some "parameter_missing",
            message := some "Product ID is required",
            param := some "productId",
            metaProductId := (GalliunButton.new "pay" "u").productId,
            metaTimestamp := 5 }]
    ∧ ((GalliunButton.new "pay" "u").mount true { hasOnError := true }
        ∅ 0 5).registry = registerFeature ∅ 0
    ∧ popupOpen ((GalliunButton.new "pay" "u").mount true
        { hasOnError := true } ∅ 0 5).button = false
    ∧ ((GalliunButton.new "pay" "u").mount true { hasOnError := true }
        ∅ 0 5).button.pollActive = (GalliunButton.new "pay" "u").pollActive
    ∧ ((GalliunButton.new "pay" "u").mount true { hasOnError := true }
        ∅ 0 5).rendered = false :=
  galliun_C6 (GalliunButton.new "pay" "u") { hasOnError := true } ∅ 0 5
    rfl rfl

/-- C7: when the open attempt returns a null handle or a handle already
reporting closed, `openPopup` invokes `onError` with a `popup_error` /
`popup_blocked` error and starts no closure-polling timer. -/
theorem galliun_C7 (b : GalliunButton) (opened : Option Popup) (now : Int)
    (hblocked : blockedHandle opened = true)
    (herr : b.callbacks.hasOnError = true) :
    (b.openPopup opened now).2
      = [CbEvent.onError
          { type := "popup_error", code := some "popup_blocked",
            message := some
              "Payment popup was blocked. Please allow popups for this site.",
            param := none, metaProductId := b.productId,
            metaTimestamp := now }]
    ∧ (b.openPopup opened now).1.pollActive = b.pollActive := by
  cases opened with
  | none =>
    cases hb : b.popup with
    | none =>
      simp [GalliunButton.openPopup, popupOpen, hb,
        GalliunButton.handleError, standardErrorOf, popupBlockedError,
        jsOrStr, jsOrOpt, closeIfPresent, herr]
    | some q =>
      obtain ⟨c⟩ := q
      cases c <;>
        simp [GalliunButton.openPopup, popupOpen, hb,
          GalliunButton.handleError, standardErrorOf, popupBlockedError,
          jsOrStr, jsOrOpt, closeIfPresent, herr]
  | some p =>
    have hp : p.closed = true := by simpa [blockedHandle] using hblocked
    cases hb : b.popup with
    | none =>
      simp [GalliunButton.openPopup, popupOpen, hb, hp,
        GalliunButton.handleError, standardErrorOf, popupBlockedError,
        jsOrStr, jsOrOpt, closeIfPresent, herr]
    | some q =>
      obtain ⟨c⟩ := q
      cases c <;>
        simp [GalliunButton.openPopup, popupOpen, hb, hp,
          GalliunButton.handleError, standardErrorOf, popupBlockedError,
          jsOrStr, jsOrOpt, closeIfPresent, herr]

/-- Witness for C7 at a concrete feature with a null open result. -/
theorem galliun_C7_witness :
    (btnWithOnError.openPopup none 9).2
      = [CbEvent.onError
          { type := "popup_error", code := some "popup_blocked",
            message := some
              "Payment popup was blocked. Please allow popups for this site.",
            param := none, metaProductId := btnWithOnError.productId,
            metaTimestamp := 9 }]
    ∧ (btnWithOnError.openPopup none 9).1.pollActive
        = btnWithOnError.pollActive :=
  galliun_C7 btnWithOnError none 9 rfl rfl

/-- C9: mounting a freshly constructed feature without `productId` delivers
a `parameter_missing` error whose `metadata.productId` is `undefined`: the
stored `productId` is still unset when `handleError` reads it, because the
assignment happens only after the validation check passes. -/
theorem galliun_C9 (eid burl : String) (options : MountOptions)
    (reg : Finset ℕ) (fid : ℕ) (now : Int)
    (hpid : options.productId = none) (herr : options.hasOnError = true) :
    ((GalliunButton.new eid burl).mount true options reg fid now).events
      = [CbEvent.onError
          { type := "validation_error", code := some "parameter_missing",
            message := some "Product ID is required",
            param := some "productId",
            metaProductId := none, metaTimestamp := now }]
    ∧ ((GalliunButton.new eid burl).mount true options
        reg fid now).button.productId = none := by
  refine ⟨?_, ?_⟩ <;>
    simp [GalliunButton.mount, GalliunButton.new, hpid, productIdMissing,
      GalliunButton.handleError, herr, standardErrorOf,
      parameterMissingError, jsOrStr, jsOrOpt, closeIfPresent]

/-- Witness for C9 at concrete constructor arguments. -/
theorem galliun_C9_witness :
    ((GalliunButton.new "pay" "u").mount true { hasOnError := true }
        ∅ 0 3).events
      = [CbEvent.onError
          { type := "validation_error", code := some "parameter_missing",
            message := some "Product ID is required",
            param := some "productId",
            metaProductId := none, metaTimestamp := 3 }]
    ∧ ((GalliunButton.new "pay" "u").mount true { hasOnError := true }
        ∅ 0 3).button.productId = none :=
  galliun_C9 "pay" "u" { hasOnError := true } ∅ 0 3 rfl rfl

/-- C10: mounting when the container element is absent logs and returns with
no other side effect — the feature state, the registry and the observable
callbacks are untouched and nothing is rendered — and a subsequent
`destroy()` on the never-registered feature with no popup is a harmless
no-op on both the feature and the registry. -/
theorem galliun_C10 (b : GalliunButton) (options : MountOptions)
    (reg : Finset ℕ) (fid : ℕ) (now : Int)
    (hreg : fid ∉ reg) (hpop : b.popup = none) :
    b.mount false options reg fid now
      = { button := b, registry := reg, events := [],
          rendered := false, logged := true }
    ∧ (b.destroy reg fid).1 = b
    ∧ (b.destroy reg fid).2 = reg := by
  refine ⟨by simp [GalliunButton.mount], ?_, ?_⟩
  · simp [GalliunButton.destroy, popupOpen, hpop]
  · simp [GalliunButton.destroy, unregisterFeature,
      Finset.erase_eq_self.mpr hreg]

/-- Witness for C10 at a fresh feature and the registry `{1, 2}`. -/
theorem galliun_C10_witness :
    (GalliunButton.new "pay" "u").mount false {} ({1, 2} : Finset ℕ) 3 4
      = { button := GalliunButton.new "pay" "u", registry := {1, 2},
          events := [], rendered := false, logged := true }
    ∧ ((GalliunButton.new "pay" "u").destroy ({1, 2} : Finset ℕ) 3).1
        = GalliunButton.new "pay" "u"
    ∧ ((GalliunButton.new "pay" "u").destroy ({1, 2} : Finset ℕ) 3).2
        = ({1, 2} : Finset ℕ) :=
  galliun_C10 (GalliunButton.new "pay" "u") {} {1, 2} 3 4 (by decide) rfl

end GalliunSpec
